import Mathlib

/-!
Verification development for the penview live-markdown-preview server
(rust sources under src/rust/penview/src/).

Shallow embedding conventions:
* Filesystem paths (Rust `Path`/`PathBuf`) are modelled as lists of path
  components, mirroring `std::path::Component` on Unix; `PathBuf` equality in
  Rust compares exactly this normalized component sequence, which the parser
  `parsePath` reproduces (interior `.` removed, repeated and trailing
  separators removed, a leading `.` kept, `..` kept).
* Byte strings (file contents) are modelled as `List Nat`; text as `String`,
  with byte positions modelled as character positions (the claims under
  consideration are insensitive to the multi-byte encoding of non-ASCII
  characters).
* The external libraries consumed by the crate (`pulldown_cmark`'s event
  stream, the `url` crate's absolute-URL check, `mime_guess`, `serde_json`
  parsing, `tokio::sync::broadcast`) are modelled at their documented
  interfaces: parsed event streams and JSON parse results are inputs, the
  URL check and the mime table are small concrete models, and the broadcast
  channel is a grow-only log with per-subscriber cursors.
* Fallible Rust code (`io::Result`, `anyhow::Result`, `Option`) is modelled
  with `Option`/`Except`.
-/

/-- Model of `std::path::Component` (Unix: no prefix components). -/
inductive Component where
  | rootDir
  | curDir
  | parentDir
  | normal (s : String)
deriving DecidableEq

/-- A path is its normalized component sequence, as `Path::components` yields. -/
abbrev PathC := List Component

/-- Split a character list at every occurrence of a separator character
(the semantics of `str::split`, hence of `splitn`-style segment iteration). -/
def split_on_char (ch : Char) : List Char → List (List Char)
  | [] => [[]]
  | c :: rest =>
      match split_on_char ch rest with
      | [] => [[c]]
      | seg :: segs => if c = ch then [] :: seg :: segs else (c :: seg) :: segs

/-- Parse one path segment the way `Path::components` classifies it. -/
def parse_component (s : String) : Component :=
  if s = (".") then Component.curDir
  else if s = ("..") then Component.parentDir
  else Component.normal s

/-- Drop `.` components (done by `Path::components` for non-leading dots). -/
def drop_cur (l : List Component) : List Component :=
  l.filter (fun c => decide (c ≠ Component.curDir))

/-- Model of `PathBuf::from(s)` viewed through `Path::components`:
splits on the separator, removes empty segments, removes `.` segments except
a leading one, and records a root for a leading separator. -/
def parsePath (s : String) : PathC :=
  let parts := (split_on_char '/' s.toList).filter (fun x => decide (x ≠ []))
  let comps := parts.map (fun seg => parse_component (String.mk seg))
  if s.toList.head? = some '/' then Component.rootDir :: drop_cur comps
  else
    match comps with
    | Component.curDir :: rest => Component.curDir :: drop_cur rest
    | l => drop_cur l

/-- Render a component back to its textual segment. -/
def comp_str : Component → String
  | Component.rootDir => ("/")
  | Component.curDir => (".")
  | Component.parentDir => ("..")
  | Component.normal s => s

/-- Model of `Path::to_str`/`Display` for a path built from components. -/
def renderPath (l : PathC) : String :=
  match l with
  | Component.rootDir :: rest =>
      ("/") ++ (String.intercalate ("/") (rest.map comp_str))
  | _ => String.intercalate ("/") (l.map comp_str)

/-- Model of `Path::is_relative` (Unix: no root component). -/
def is_relative (l : PathC) : Bool :=
  decide (l.head? ≠ some Component.rootDir)

/-- Model of `Path::join` / `PathBuf::push`: an absolute right side replaces
the left side; otherwise the segments are appended (whereupon the right side's
`.` segments become interior ones, which `components` drops). -/
def joinP (a b : PathC) : PathC :=
  if b.head? = some Component.rootDir then b
  else if a = [] then b
  else a ++ drop_cur b

/-- Model of `Path::parent`: `none` for the empty path and for the bare root,
otherwise the path with its last component removed. -/
def parentP (l : PathC) : Option PathC :=
  if l = [] ∨ l = [Component.rootDir] then none else some l.dropLast

/-- Model of `PathBuf::pop`: drop the last component if a parent exists,
silently keep the path unchanged otherwise (this is what drops a `..`
that would pop past the root). -/
def popP (l : PathC) : PathC :=
  (parentP l).getD l

/-- The body of the component loop in `join_and_canonicalize`
(src/rust/penview/src/render.rs lines 510-518): `..` pops, `.` is skipped,
anything else is pushed. -/
def clean_step (acc : PathC) (c : Component) : PathC :=
  match c with
  | Component.parentDir => popP acc
  | Component.curDir => acc
  | _ => acc ++ [c]

/-- Model of `join_and_canonicalize` (src/rust/penview/src/render.rs lines
498-521): take the base file's parent directory (erring when there is none),
join the destination onto it, and clean the result component by component
without touching the filesystem. -/
def join_and_canonicalize (path : String) (current_file : PathC) : Option PathC :=
  (parentP current_file).map
    (fun current_dir => ((joinP current_dir (parsePath path)).foldl clean_step []))

/-- Model of `Path::strip_prefix` at component level. -/
def strip_pre (pre l : PathC) : Option PathC :=
  if l.take pre.length = pre then some (l.drop pre.length) else none

/-- Model of `is_child_path` (render.rs lines 571-595). -/
def is_child_path (parent_dir child : PathC) : Bool :=
  if is_relative child then false
  else if child.length ≤ parent_dir.length then false
  else decide (child.take parent_dir.length = parent_dir)

/-- Model of `truncate_cwd` (render.rs lines 542-553); the current working
directory is passed in (`none` models `std::env::current_dir` failing). -/
def truncate_cwd (cwd : Option PathC) (file_path : PathC) : Option PathC :=
  match cwd with
  | none => none
  | some current_dir => strip_pre current_dir file_path

/-- Model of `get_relative_path_under_cwd` (render.rs lines 463-473). -/
def get_relative_path_under_cwd (cwd : Option PathC) (file_path : PathC) :
    Option PathC :=
  match cwd with
  | some current_dir =>
      if is_child_path current_dir file_path then truncate_cwd cwd file_path
      else some file_path
  | none => some file_path

/-- Model of the `resolve_path` crate's `resolve_in`: an absolute path is
returned unchanged, a path starting with the bare `~` segment is joined onto
the home directory, any other path is joined onto the given base.
(The crate's `~user` handling is not modelled; no caller in this crate and no
claim exercises it.) -/
def resolve_in (p base home : PathC) : PathC :=
  if p.head? = some Component.rootDir then p
  else
    match p with
    | Component.normal s :: rest =>
        if s = ("~") then joinP home rest else joinP base p
    | _ => joinP base p

/-- The standard base64 alphabet. -/
def b64_alphabet : List Char :=
  ("ABCDEFGHIJKLMNOPQRSTUVWXYZabcdefghijklmnopqrstuvwxyz0123456789+/").toList

/-- Look up one base64 digit. -/
def b64_char (n : Nat) : Char :=
  b64_alphabet.getD n ('A')

/-- Model of `base64::engine::general_purpose::STANDARD.encode`: groups of
three bytes become four digits, with `=` padding. -/
def base64_encode : List Nat → List Char
  | [] => []
  | [a] => [b64_char (a / 4), b64_char ((a % 4) * 16), '=', '=']
  | [a, b] => [b64_char (a / 4), b64_char ((a % 4) * 16 + b / 16),
               b64_char ((b % 16) * 4), '=']
  | a :: b :: c :: rest =>
      [b64_char (a / 4), b64_char ((a % 4) * 16 + b / 16),
       b64_char ((b % 16) * 4 + c / 64), b64_char (c % 64)]
      ++ base64_encode rest

/-- The bytes of an ASCII string (the templates below are pure ASCII). -/
def str_bytes (s : String) : List Nat :=
  s.toList.map Char.toNat

/-- Model of `data_url` (render.rs lines 11-15). -/
def data_url (data : List Nat) (mime_type : String) : String :=
  ("data:") ++ mime_type ++ (";base64,") ++ String.mk (base64_encode data)

/-- Model of `Path::extension` for the last component of a path. -/
def extension_of (p : PathC) : Option String :=
  match p.getLast? with
  | some (Component.normal s) =>
      let parts := split_on_char '.' s.toList
      if parts.length < 2 then none
      else if parts.length = 2 ∧ parts.headD [] = [] then none
      else (parts.getLast?).map String.mk
  | _ => none

/-- Reduced model of the external `mime_guess` table restricted to common
image types; `first_raw()` yielding nothing is the `none` case, which the
caller defaults to `text/plain` (render.rs line 34). -/
def mime_of_ext (e : String) : Option String :=
  if e = ("png") then some ("image/png")
  else if e = ("jpg") ∨ e = ("jpeg") then some ("image/jpeg")
  else if e = ("gif") then some ("image/gif")
  else if e = ("svg") then some ("image/svg+xml")
  else if e = ("webp") then some ("image/webp")
  else if e = ("bmp") then some ("image/bmp")
  else none

/-- Model of `mime_guess::from_path(..).first_raw().unwrap_or("text/plain")`. -/
def mime_for_path (p : PathC) : String :=
  ((extension_of p).bind mime_of_ext).getD ("text/plain")

/-- Model of `path_to_data_url` (render.rs lines 27-36); the filesystem is an
explicit function from paths to byte contents, `none` meaning the read fails
(missing file or I/O error). -/
def path_to_data_url (fs : PathC → Option (List Nat)) (p : PathC) :
    Option String :=
  (fs p).map (fun file => data_url file (mime_for_path p))

/-- Modelled from the spec: the SVG placeholder template rendered by
`SvgTemplate` (src/rust/penview/src/svg_template.rs is not under src/);
per section 4.1 it is "a solid-color SVG containing an error message". -/
def svg_template (fill text : String) : String :=
  ("<svg xmlns=\"http://www.w3.org/2000/svg\" width=\"400\" height=\"100\">")
  ++ ("<rect width=\"100%\" height=\"100%\" fill=\"") ++ fill ++ ("\" />")
  ++ ("<text x=\"10\" y=\"50\">") ++ text ++ ("</text></svg>")

/-- Model of `generate_message_data_url` (render.rs lines 38-49). -/
def generate_message_data_url (message color : String) : String :=
  data_url (str_bytes (svg_template color message)) ("image/svg+xml")

/-- Whether a character may continue a URL scheme. -/
def is_scheme_char (c : Char) : Bool :=
  c.isAlphanum || c = '+' || c = '-' || c = '.'

/-- Scan for the colon that terminates a URL scheme. -/
def has_scheme_colon : List Char → Bool
  | [] => false
  | c :: rest => if c = ':' then true else is_scheme_char c && has_scheme_colon rest

/-- Model of the external `url` crate's `Url::parse(s).is_ok()`: per the spec
(section 4.1) the destination "parses as an absolute URL (has a scheme)" —
a leading letter followed by scheme characters and a colon. -/
def url_parse_ok (s : String) : Bool :=
  match s.toList with
  | [] => false
  | c :: rest => c.isAlpha && has_scheme_colon rest

/-- Model of `pulldown_cmark::HeadingLevel`. -/
inductive HeadingLevel where
  | h1 | h2 | h3 | h4 | h5 | h6
deriving DecidableEq

/-- Model of `pulldown_cmark::CodeBlockKind`. -/
inductive CodeBlockKind where
  | indented
  | fenced (info : String)
deriving DecidableEq

/-- Model of `pulldown_cmark::LinkType`. -/
inductive LinkType where
  | inline
  | reference
  | referenceUnknown
  | collapsed
  | collapsedUnknown
  | shortcut
  | shortcutUnknown
  | autolink
  | email
  | wikiLink
deriving DecidableEq

/-- Model of `pulldown_cmark::Tag` restricted to the payloads the renderer
reads (heading classes/attrs, blockquote kind, table alignments and link ids
are ignored by the source, so they are omitted here). -/
inductive Tag where
  | paragraph
  | heading (level : HeadingLevel) (id : Option String)
  | blockQuote
  | codeBlock (kind : CodeBlockKind)
  | list (start : Option Nat)
  | item
  | footnoteDefinition (name : String)
  | table
  | tableHead
  | tableRow
  | tableCell
  | emphasis
  | strong
  | strikethrough
  | superscript
  | subscript
  | link (link_type : LinkType) (dest_url : String) (title : String)
  | image (link_type : LinkType) (dest_url : String) (title : String)
  | metadataBlock
  | definitionList
  | definitionListTitle
  | definitionListDefinition
  | htmlBlock
deriving DecidableEq

/-- Model of `pulldown_cmark::TagEnd`. -/
inductive TagEnd where
  | paragraph
  | heading (level : HeadingLevel)
  | blockQuote
  | codeBlock
  | list (ordered : Bool)
  | item
  | footnoteDefinition
  | table
  | tableHead
  | tableRow
  | tableCell
  | emphasis
  | strong
  | strikethrough
  | superscript
  | subscript
  | link
  | image
  | metadataBlock
  | definitionList
  | definitionListTitle
  | definitionListDefinition
  | htmlBlock
deriving DecidableEq

/-- Model of `pulldown_cmark::Event`. -/
inductive Event where
  | start (tag : Tag)
  | endTag (tag_end : TagEnd)
  | text (s : String)
  | code (s : String)
  | html (s : String)
  | inlineHtml (s : String)
  | softBreak
  | hardBreak
  | rule
  | footnoteReference (name : String)
  | taskListMarker (checked : Bool)
  | inlineMath (s : String)
  | displayMath (s : String)
deriving DecidableEq

/-- The double-quote character (escaped by `escape_html`). -/
def quot_char : Char := Char.ofNat 34

/-- The apostrophe character (escaped by `escape_html`). -/
def apos_char : Char := Char.ofNat 39

/-- Per-character body of `escape_html` (render.rs lines 207-220). -/
def escape_char (c : Char) : List Char :=
  if c = '&' then ("&amp;").toList
  else if c = '<' then ("&lt;").toList
  else if c = '>' then ("&gt;").toList
  else if c = quot_char then ("&quot;").toList
  else if c = apos_char then ("&#x27;").toList
  else [c]

/-- Model of `escape_html` (render.rs lines 207-220). -/
def escape_html (s : String) : String :=
  String.mk (s.toList.flatMap escape_char)

/-- Model of `heading_level_to_u8` (render.rs lines 223-232). -/
def heading_level_to_u8 : HeadingLevel → Nat
  | HeadingLevel.h1 => 1
  | HeadingLevel.h2 => 2
  | HeadingLevel.h3 => 3
  | HeadingLevel.h4 => 4
  | HeadingLevel.h5 => 5
  | HeadingLevel.h6 => 6

/-- Model of `byte_offset_to_line` (render.rs lines 17-24): the offset is
clamped to the content length, and newlines strictly before it are counted,
plus one. -/
def byte_offset_to_line (content : String) (offset : Nat) : Nat :=
  ((content.toList.take (min offset content.toList.length)).filter
    (fun b => decide (b = '\n'))).length + 1

/-- ASCII whitespace test for the fence info string. -/
def is_ws (c : Char) : Bool :=
  c = ' ' || c = '\t' || c = '\n' || c = '\r'

/-- Model of `info.split_whitespace().next().unwrap_or("")`. -/
def first_word (s : String) : String :=
  String.mk ((s.toList.dropWhile is_ws).takeWhile (fun c => !(is_ws c)))

/-- Model of `write_start_tag` (render.rs lines 235-365): returns the chunk
appended to the output and the new `in_code_block` flag. -/
def write_start_tag (tag : Tag) (line : Nat) (in_code_block : Bool) :
    String × Bool :=
  match tag with
  | Tag.paragraph =>
      (("<p data-source-line=\"") ++ toString line ++ ("\">"), in_code_block)
  | Tag.heading level id =>
      (match id with
       | some i =>
           ("<h") ++ toString (heading_level_to_u8 level) ++ (" id=\"")
           ++ escape_html i ++ ("\" data-source-line=\"") ++ toString line
           ++ ("\">")
       | none =>
           ("<h") ++ toString (heading_level_to_u8 level)
           ++ (" data-source-line=\"") ++ toString line ++ ("\">"),
       in_code_block)
  | Tag.blockQuote =>
      (("<blockquote data-source-line=\"") ++ toString line ++ ("\">\n"),
       in_code_block)
  | Tag.codeBlock kind =>
      (match kind with
       | CodeBlockKind.fenced info =>
           let lang := first_word info
           if lang = ("") then
             ("<pre data-source-line=\"") ++ toString line ++ ("\"><code>")
           else
             ("<pre data-source-line=\"") ++ toString line
             ++ ("\"><code class=\"language-") ++ escape_html lang ++ ("\">")
       | CodeBlockKind.indented =>
           ("<pre data-source-line=\"") ++ toString line ++ ("\"><code>"),
       true)
  | Tag.list start =>
      (match start with
       | some start_num =>
           if start_num = 1 then
             ("<ol data-source-line=\"") ++ toString line ++ ("\">\n")
           else
             ("<ol start=\"") ++ toString start_num
             ++ ("\" data-source-line=\"") ++ toString line ++ ("\">\n")
       | none => ("<ul data-source-line=\"") ++ toString line ++ ("\">\n"),
       in_code_block)
  | Tag.item =>
      (("<li data-source-line=\"") ++ toString line ++ ("\">"), in_code_block)
  | Tag.footnoteDefinition name =>
      (("<div class=\"footnote-definition\" id=\"") ++ escape_html name
       ++ ("\" data-source-line=\"") ++ toString line
       ++ ("\">\n<span class=\"footnote-definition-label\">")
       ++ escape_html name ++ ("</span>\n"), in_code_block)
  | Tag.table =>
      (("<table data-source-line=\"") ++ toString line ++ ("\">\n"),
       in_code_block)
  | Tag.tableHead => (("<thead>\n<tr>\n"), in_code_block)
  | Tag.tableRow => (("<tr>\n"), in_code_block)
  | Tag.tableCell => (("<td>"), in_code_block)
  | Tag.emphasis => (("<em>"), in_code_block)
  | Tag.strong => (("<strong>"), in_code_block)
  | Tag.strikethrough => (("<del>"), in_code_block)
  | Tag.superscript => (("<sup>"), in_code_block)
  | Tag.subscript => (("<sub>"), in_code_block)
  | Tag.link _ dest_url title =>
      (("<a href=\"") ++ escape_html dest_url ++ ("\"")
       ++ (if title = ("") then ("")
           else (" title=\"") ++ escape_html title ++ ("\""))
       ++ (">"), in_code_block)
  | Tag.image _ dest_url _ =>
      (("<img src=\"") ++ escape_html dest_url ++ ("\" alt=\""), in_code_block)
  | Tag.metadataBlock => ((""), in_code_block)
  | Tag.definitionList =>
      (("<dl data-source-line=\"") ++ toString line ++ ("\">\n"), in_code_block)
  | Tag.definitionListTitle =>
      (("<dt data-source-line=\"") ++ toString line ++ ("\">"), in_code_block)
  | Tag.definitionListDefinition =>
      (("<dd data-source-line=\"") ++ toString line ++ ("\">"), in_code_block)
  | Tag.htmlBlock => ((""), in_code_block)

/-- Model of `write_end_tag` (render.rs lines 368-446). -/
def write_end_tag (tag_end : TagEnd) (in_code_block : Bool) : String × Bool :=
  match tag_end with
  | TagEnd.paragraph => (("</p>\n"), in_code_block)
  | TagEnd.heading level =>
      (("</h") ++ toString (heading_level_to_u8 level) ++ (">\n"),
       in_code_block)
  | TagEnd.blockQuote => (("</blockquote>\n"), in_code_block)
  | TagEnd.codeBlock => (("</code></pre>\n"), false)
  | TagEnd.list ordered =>
      (if ordered then ("</ol>\n") else ("</ul>\n"), in_code_block)
  | TagEnd.item => (("</li>\n"), in_code_block)
  | TagEnd.footnoteDefinition => (("</div>\n"), in_code_block)
  | TagEnd.table => (("</tbody>\n</table>\n"), in_code_block)
  | TagEnd.tableHead => (("</tr>\n</thead>\n<tbody>\n"), in_code_block)
  | TagEnd.tableRow => (("</tr>\n"), in_code_block)
  | TagEnd.tableCell => (("</td>\n"), in_code_block)
  | TagEnd.emphasis => (("</em>"), in_code_block)
  | TagEnd.strong => (("</strong>"), in_code_block)
  | TagEnd.strikethrough => (("</del>"), in_code_block)
  | TagEnd.superscript => (("</sup>"), in_code_block)
  | TagEnd.subscript => (("</sub>"), in_code_block)
  | TagEnd.link => (("</a>"), in_code_block)
  | TagEnd.image => (("\" />"), in_code_block)
  | TagEnd.metadataBlock => ((""), in_code_block)
  | TagEnd.definitionList => (("</dl>\n"), in_code_block)
  | TagEnd.definitionListTitle => (("</dt>\n"), in_code_block)
  | TagEnd.definitionListDefinition => (("</dd>\n"), in_code_block)
  | TagEnd.htmlBlock => ((""), in_code_block)

/-- One iteration of the HTML-generation loop in `render_markdown_to_html`
(render.rs lines 143-201): the state is the output accumulated so far plus
the `in_code_block` flag, and each `(event, range-start)` pair appends its
chunk. -/
def render_step (content : String) (st : String × Bool) (e : Event × Nat) :
    String × Bool :=
  let line := byte_offset_to_line content e.2
  let body := st.1
  let in_code_block := st.2
  match e.1 with
  | Event.start tag =>
      let r := write_start_tag tag line in_code_block
      (body ++ r.1, r.2)
  | Event.endTag tag_end =>
      let r := write_end_tag tag_end in_code_block
      (body ++ r.1, r.2)
  | Event.text t => (body ++ escape_html t, in_code_block)
  | Event.code c =>
      (body ++ ("<code>") ++ escape_html c ++ ("</code>"), in_code_block)
  | Event.html h => (body ++ h, in_code_block)
  | Event.inlineHtml h => (body ++ h, in_code_block)
  | Event.softBreak => (body ++ ("\n"), in_code_block)
  | Event.hardBreak => (body ++ ("<br />\n"), in_code_block)
  | Event.rule =>
      (body ++ ("<hr data-source-line=\"") ++ toString line ++ ("\" />\n"),
       in_code_block)
  | Event.footnoteReference name =>
      (body ++ ("<sup class=\"footnote-reference\"><a href=\"#")
       ++ escape_html name ++ ("\">") ++ escape_html name ++ ("</a></sup>"),
       in_code_block)
  | Event.taskListMarker checked =>
      (body ++ (if checked then ("<input type=\"checkbox\" disabled checked />")
                else ("<input type=\"checkbox\" disabled />")), in_code_block)
  | Event.inlineMath m =>
      (body ++ ("<span class=\"math\">") ++ escape_html m ++ ("</span>"),
       in_code_block)
  | Event.displayMath m =>
      (body ++ ("<div class=\"math\" data-source-line=\"") ++ toString line
       ++ ("\">") ++ escape_html m ++ ("</div>\n"), in_code_block)

/-- The resolved path an inline link destination is rewritten to
(render.rs lines 116-132): parse the destination as a path; a relative one is
joined and canonicalized against the base file (keeping the original on
failure); the result is made relative to the working directory when it falls
under it. -/
def rewrite_link_target (cwd : Option PathC) (base_path : PathC)
    (dest : String) : PathC :=
  let file_path := parsePath dest
  let fp1 :=
    if is_relative file_path then
      (join_and_canonicalize dest base_path).getD file_path
    else file_path
  (get_relative_path_under_cwd cwd fp1).getD fp1

/-- The rewritten inline-link destination (render.rs line 133). -/
def rewrite_link_dest (cwd : Option PathC) (base_path : PathC)
    (dest : String) : String :=
  ("/?path=") ++ renderPath (rewrite_link_target cwd base_path dest)

/-- The URL-rewriting pass of `render_markdown_to_html` (render.rs lines
87-137), acting on one event: only `Start` events of *inline* images and
*inline* links are touched, and only when the destination does not already
parse as an absolute URL.  Inline images become data-URLs (placeholder on a
failed read); inline links become application-internal `/?path=` references. -/
def rewrite_event (fs : PathC → Option (List Nat)) (cwd : Option PathC)
    (home base_path : PathC) : Event → Event
  | Event.start (Tag.image LinkType.inline dest_url title) =>
      if url_parse_ok dest_url then
        Event.start (Tag.image LinkType.inline dest_url title)
      else
        let image_path := parsePath dest_url
        let new_dest :=
          (path_to_data_url fs (resolve_in image_path base_path home)).getD
            (generate_message_data_url ("Disk error.") ("red"))
        Event.start (Tag.image LinkType.inline new_dest title)
  | Event.start (Tag.link LinkType.inline dest_url title) =>
      if url_parse_ok dest_url then
        Event.start (Tag.link LinkType.inline dest_url title)
      else
        Event.start
          (Tag.link LinkType.inline (rewrite_link_dest cwd base_path dest_url)
            title)
  | e => e

/-- The URL-rewriting pass over the whole event stream (the ranges attached
to the events are untouched). -/
def rewrite_events (fs : PathC → Option (List Nat)) (cwd : Option PathC)
    (home base_path : PathC) (events : List (Event × Nat)) :
    List (Event × Nat) :=
  events.map (fun e => (rewrite_event fs cwd home base_path e.1, e.2))

/-- Model of `render_markdown_to_html` (render.rs lines 81-204).  The parse
itself is external (`pulldown_cmark::Parser`), so the position-tagged event
stream is an input; the function rewrites URLs and then folds the HTML
generation loop from an empty body with `in_code_block = false`. -/
def render_markdown_to_html (fs : PathC → Option (List Nat))
    (cwd : Option PathC) (home base_path : PathC) (content : String)
    (events : List (Event × Nat)) : String :=
  ((rewrite_events fs cwd home base_path events).foldl (render_step content)
    ((""), false)).1

/-- Model of `render_content` (render.rs lines 75-77): it wraps the total
rendering function in `Ok` and has no failure path. -/
def render_content (fs : PathC → Option (List Nat)) (cwd : Option PathC)
    (home base_path : PathC) (content : String)
    (events : List (Event × Nat)) : Except String String :=
  Except.ok (render_markdown_to_html fs cwd home base_path content events)

/-- Modelled from the spec: the HTML page shell rendered by `PageTemplate`
(src/rust/penview/src/page_template.rs is not under src/); per section 6 it
"wraps the rendered HTML body in a full document shell". -/
def page_template (body title : String) (use_websocket : Bool) : String :=
  ("<!DOCTYPE html><html><head><title>") ++ title
  ++ ("</title></head><body>") ++ body
  ++ (if use_websocket then ("<script>/* websocket reload */</script>")
      else (""))
  ++ ("</body></html>")

/-- Model of `render_doc` (render.rs lines 55-69): `canonicalize` is an OS
call, modelled by its result (`none` = failure), as is the file read; both
failures surface as errors, and the successful path renders the body and
wraps it in the page template. -/
def render_doc (canon : Option PathC) (reader : PathC → Option String)
    (parse_md : String → List (Event × Nat)) (fs : PathC → Option (List Nat))
    (cwd : Option PathC) (home : PathC) (use_websocket : Bool) :
    Except String String :=
  match canon with
  | none => Except.error ("canonicalize failed")
  | some path =>
      match reader path with
      | none => Except.error ("read failed")
      | some file =>
          Except.ok
            (page_template
              (render_markdown_to_html fs cwd home path file (parse_md file))
              (renderPath path) use_websocket)

/-- Whether an `Except` is a success. -/
def except_is_ok : Except String String → Bool
  | Except.ok _ => true
  | Except.error _ => false

/-- Model of one `tokio::sync::broadcast` channel as used by the hub: the
capacity passed at creation and the grow-only log of published messages.
(The bounded-buffer lagging of slow receivers is not exercised by any claim;
a subscription is a cursor into the log, observing exactly the messages
published after it was taken.) -/
structure BChannel where
  capacity : Nat
  log : List String
deriving DecidableEq

/-- Model of `broadcast::Sender::send` for the flat channel value. -/
def publishC (c : BChannel) (m : String) : BChannel :=
  { c with log := c.log ++ [m] }

/-- Model of `broadcast::Sender::subscribe`: the new receiver's cursor sits
at the current end of the log, so no history is replayed. -/
def subscribeC (c : BChannel) : Nat :=
  c.log.length

/-- The messages a receiver with the given cursor observes from a (later
state of the) channel. -/
def received (cursor : Nat) (c : BChannel) : List String :=
  c.log.drop cursor

/-- Model of `AppState` (src/rust/penview/src/state.rs lines 8-11): the
process-wide registry mapping document paths to their broadcast channels,
modelled as an association list (`HashMap<PathBuf, broadcast::Sender>`). -/
structure AppState where
  channels : List (PathC × BChannel)
deriving DecidableEq

/-- Model of `AppState::new` (state.rs lines 14-18). -/
def AppState.new : AppState :=
  AppState.mk []

/-- Association-list lookup modelling `HashMap::get`/`entry` probing. -/
def lookup_channel : List (PathC × BChannel) → PathC → Option BChannel
  | [], _ => none
  | e :: rest, p => if e.1 = p then some e.2 else lookup_channel rest p

/-- Model of `AppState::get_or_create_channel` (state.rs lines 20-26):
`entry(path).or_insert_with(|| broadcast::channel(16).0)` — return the
existing channel for the path, or insert a fresh one of capacity 16. -/
def get_or_create_channel (st : AppState) (p : PathC) : BChannel × AppState :=
  match lookup_channel st.channels p with
  | some c => (c, st)
  | none =>
      (BChannel.mk 16 [], AppState.mk (st.channels ++ [(p, BChannel.mk 16 [])]))

/-- Publishing through a sender handle obtained for path `p`: the registry
entry for `p` (and only that entry) grows its log. -/
def publish_state (st : AppState) (p : PathC) (m : String) : AppState :=
  AppState.mk
    (st.channels.map (fun e => if e.1 = p then (e.1, publishC e.2 m) else e))

/-- The registry key used by the preview intake (routes/preview.rs line 54):
the raw `path` query parameter, with no resolution or canonicalization. -/
def preview_channel_key (path : String) : PathC :=
  parsePath path

/-- The registry key used by the viewer feed (routes/watch.rs lines 36 and
52): the `path` query parameter resolved by the `resolve_path` crate against
the current working directory (and home directory for `~`). -/
def watch_channel_key (cwd home : PathC) (path : String) : PathC :=
  resolve_in (parsePath path) cwd home

/-- Model of the structured intake message `PreviewInput`
(routes/preview.rs lines 21-28). -/
structure PreviewInput where
  content : String
  cursor_line : Nat
  total_lines : Nat
  sync_scroll : Bool
deriving DecidableEq

/-- Model of `str::lines().count()`: one line per newline, plus one more when
text follows the final newline (a trailing newline does not open a line). -/
def lines_count (s : String) : Nat :=
  s.toList.count '\n'
  + (if s.toList = [] ∨ s.toList.getLast? = some '\n' then 0 else 1)

/-- The spec's phrase for the legacy fallback: "the count of line breaks in
the payload". -/
def count_line_breaks (s : String) : Nat :=
  s.toList.count '\n'

/-- The frame-decoding step of `handle_preview` (routes/preview.rs lines
59-72).  JSON parsing is external (`serde_json::from_str`), so its result is
an input; `none` models a frame that fails to parse as the structured form
and takes the backward-compatibility branch. -/
def parse_frame (parsed : Option PreviewInput) (text : String) :
    String × Nat × Nat × Bool :=
  match parsed with
  | some input =>
      (input.content, input.cursor_line, input.total_lines, input.sync_scroll)
  | none => (text, 1, max (lines_count text) 1, false)

/-- Model of the scroll-ratio computation (routes/preview.rs lines 76-80):
`(cursor_line as f64 / total_lines as f64).clamp(0.0, 1.0)` when
`total_lines > 0`, else `0.0` (exact rationals stand in for `f64`). -/
def scroll_ratio (cursor_line total_lines : Nat) : ℚ :=
  if 0 < total_lines then
    min (max ((cursor_line : ℚ) / (total_lines : ℚ)) 0) 1
  else 0

/-- Model of `serde_json::to_string::<PreviewOutput>` (routes/preview.rs
lines 35-40 and 88): assembles the outbound JSON text.  No claim inspects
this text; it only needs to be a function of the three fields. -/
def encode_output (html : String) (ratio : ℚ) (sync_scroll : Bool) : String :=
  ("\x7b\"html\":\"") ++ html ++ ("\",\"scroll_ratio\":") ++ toString ratio
  ++ (",\"sync_scroll\":") ++ (if sync_scroll then ("true") else ("false"))
  ++ ("\x7d")

/-- Model of one iteration of the `handle_preview` receive loop
(routes/preview.rs lines 56-96) for a text frame: decode the frame (with the
legacy fallback), render, and publish the encoded output on the channel for
the raw request path.  The returned flag records whether the render-error
branch (lines 92-94) was taken. -/
def handle_preview_frame (parse_md : String → List (Event × Nat))
    (fs : PathC → Option (List Nat)) (cwd : Option PathC) (home : PathC)
    (st : AppState) (path : PathC) (parsed : Option PreviewInput)
    (text : String) : AppState × Bool :=
  let st1 := (get_or_create_channel st path).2
  let f := parse_frame parsed text
  match render_content fs cwd home path f.1 (parse_md f.1) with
  | Except.ok html =>
      (publish_state st1 path
        (encode_output html (scroll_ratio f.2.1 f.2.2.1) f.2.2.2), false)
  | Except.error _ => (st1, true)

/-- Counting with a decidable-equality filter agrees with `List.count`. -/
theorem filter_eq_length_count (l : List Char) (a : Char) :
    (l.filter (fun b => decide (b = a))).length = l.count a := by
  induction l with
  | nil => simp
  | cons b t ih =>
      by_cases hb : b = a <;> simp [List.filter, hb, List.count_cons, ih]

/-- The filtered length of a longer prefix is at least that of a shorter one. -/
theorem filter_take_length_mono (p : Char → Bool) (l : List Char) {m n : Nat}
    (h : m ≤ n) :
    ((l.take m).filter p).length ≤ ((l.take n).filter p).length := by
  have hn : m + (n - m) = n := Nat.add_sub_cancel' h
  have : l.take n = l.take m ++ (l.drop m).take (n - m) := by
    conv_lhs => rw [← hn]
    rw [List.take_add]
  rw [this, List.filter_append, List.length_append]
  exact Nat.le_add_right _ _

/-- Lookup distributes over append when the key is absent on the left. -/
theorem lookup_channel_append_of_none {l1 : List (PathC × BChannel)}
    (l2 : List (PathC × BChannel)) (p : PathC)
    (h : lookup_channel l1 p = none) :
    lookup_channel (l1 ++ l2) p = lookup_channel l2 p := by
  induction l1 with
  | nil => simp
  | cons e t ih =>
      by_cases he : e.1 = p
      · simp [lookup_channel, he] at h
      · simp only [lookup_channel, he, if_false, List.cons_append] at h ⊢
        exact ih h

/-- Lookup distributes over append when the key is present on the left. -/
theorem lookup_channel_append_of_some {l1 : List (PathC × BChannel)}
    (l2 : List (PathC × BChannel)) (p : PathC) (c : BChannel)
    (h : lookup_channel l1 p = some c) :
    lookup_channel (l1 ++ l2) p = some c := by
  induction l1 with
  | nil => simp [lookup_channel] at h
  | cons e t ih =>
      by_cases he : e.1 = p
      · simp only [lookup_channel, he, if_true, if_pos rfl] at h ⊢
        simpa using h
      · simp only [lookup_channel, he, if_false, List.cons_append] at h ⊢
        exact ih h

/-- Lookup in a one-entry registry. -/
theorem lookup_channel_single (p q : PathC) (c : BChannel) :
    lookup_channel [(p, c)] q = if p = q then some c else none := by
  simp [lookup_channel]

/-- Re-running `get_or_create_channel` on the same path returns the channel
the first call returned. -/
theorem get_or_create_channel_idem (st : AppState) (p : PathC) :
    (get_or_create_channel ((get_or_create_channel st p).2) p).1
      = (get_or_create_channel st p).1 := by
  cases hl : lookup_channel st.channels p with
  | some c => simp [get_or_create_channel, hl]
  | none =>
      have h2 : lookup_channel (st.channels ++ [(p, BChannel.mk 16 [])]) p
          = some (BChannel.mk 16 []) := by
        rw [lookup_channel_append_of_none _ p hl, lookup_channel_single]
        simp
      simp [get_or_create_channel, hl, h2]

/-- C5: for every source text and byte offset, `byte_offset_to_line` returns
one plus the count of newline bytes strictly before the offset (the offset
first clamped to the source length), hence is 1-based (at least 1) and, for a
fixed source, monotone non-decreasing in the offset. -/
theorem c5_byte_offset_to_line (content : String) (o o1 o2 : Nat) :
    byte_offset_to_line content o
      = (content.toList.take (min o content.toList.length)).count '\n' + 1
    ∧ 1 ≤ byte_offset_to_line content o
    ∧ (o1 ≤ o2 →
        byte_offset_to_line content o1 ≤ byte_offset_to_line content o2) := by
  refine ⟨?_, ?_, ?_⟩
  · unfold byte_offset_to_line
    rw [filter_eq_length_count]
  · unfold byte_offset_to_line
    exact Nat.le_add_left 1 _
  · intro h
    unfold byte_offset_to_line
    have hm : min o1 content.toList.length ≤ min o2 content.toList.length :=
      min_le_min h le_rfl
    have := filter_take_length_mono (fun b => decide (b = '\n'))
      content.toList hm
    omega

/-- Witness for C5 at a concrete source and pair of offsets. -/
theorem c5_byte_offset_to_line_witness :
    byte_offset_to_line ("a\nb\nc") 1 ≤ byte_offset_to_line ("a\nb\nc") 4 :=
  (c5_byte_offset_to_line ("a\nb\nc") 0 1 4).2.2 (by decide)

/-- C8: a subscription taken after message M1 was published and before M2 was
published observes exactly [M2] — M2 is received and M1 is never replayed. -/
theorem c8_fanout_isolation (c : BChannel) (m1 m2 : String) :
    received (subscribeC (publishC c m1)) (publishC (publishC c m1) m2) = [m2]
    ∧ (m1 ≠ m2 →
        m1 ∉ received (subscribeC (publishC c m1))
               (publishC (publishC c m1) m2)) := by
  have h : received (subscribeC (publishC c m1))
      (publishC (publishC c m1) m2) = [m2] := by
    show ((c.log ++ [m1]) ++ [m2]).drop (c.log ++ [m1]).length = [m2]
    exact List.drop_left _ _
  refine ⟨h, fun hne => ?_⟩
  rw [h]
  simp [hne]

/-- Witness for C8 on a fresh capacity-16 channel and two distinct messages. -/
theorem c8_fanout_isolation_witness :
    received (subscribeC (publishC (BChannel.mk 16 []) ("m1")))
        (publishC (publishC (BChannel.mk 16 []) ("m1")) ("m2")) = [("m2")]
    ∧ ("m1") ∉ received (subscribeC (publishC (BChannel.mk 16 []) ("m1")))
        (publishC (publishC (BChannel.mk 16 []) ("m1")) ("m2")) :=
  ⟨(c8_fanout_isolation (BChannel.mk 16 []) ("m1") ("m2")).1,
   (c8_fanout_isolation (BChannel.mk 16 []) ("m1") ("m2")).2 (by decide)⟩

/-- C10: every channel `get_or_create_channel` stores has capacity 16; an
existing entry is returned unchanged (never replaced or removed); after the
call the path maps to the returned channel; and no other path's entry is
touched — so the registry invariant is preserved by every operation. -/
theorem c10_registry_invariant (st : AppState) (p q : PathC) (c : BChannel) :
    ((∀ q' c', lookup_channel st.channels q' = some c' → c'.capacity = 16) →
      ∀ q' c',
        lookup_channel ((get_or_create_channel st p).2).channels q' = some c' →
        c'.capacity = 16)
    ∧ (lookup_channel st.channels p = some c →
        get_or_create_channel st p = (c, st))
    ∧ lookup_channel ((get_or_create_channel st p).2).channels p
        = some (get_or_create_channel st p).1
    ∧ (q ≠ p →
        lookup_channel ((get_or_create_channel st p).2).channels q
          = lookup_channel st.channels q) := by
  cases hl : lookup_channel st.channels p with
  | some c0 =>
      refine ⟨?_, ?_, ?_, ?_⟩
      · intro hcap q' c' h'
        simp only [get_or_create_channel, hl] at h'
        exact hcap q' c' h'
      · intro h
        cases h
        simp [get_or_create_channel, hl]
      · simp [get_or_create_channel, hl]
      · intro _
        simp [get_or_create_channel, hl]
  | none =>
      refine ⟨?_, ?_, ?_, ?_⟩
      · intro hcap q' c' h'
        simp only [get_or_create_channel, hl] at h'
        cases hq' : lookup_channel st.channels q' with
        | some d =>
            rw [lookup_channel_append_of_some _ q' d hq'] at h'
            exact hcap q' c' (hq'.trans h')
        | none =>
            rw [lookup_channel_append_of_none _ q' hq',
              lookup_channel_single] at h'
            by_cases hpq : p = q'
            · rw [if_pos hpq] at h'
              cases h'
              rfl
            · rw [if_neg hpq] at h'
              cases h'
      · intro h
        cases h
      · simp only [get_or_create_channel, hl]
        rw [lookup_channel_append_of_none _ p hl, lookup_channel_single]
        simp
      · intro hq
        simp only [get_or_create_channel, hl]
        cases hq' : lookup_channel st.channels q with
        | some d => rw [lookup_channel_append_of_some _ q d hq']
        | none =>
            rw [lookup_channel_append_of_none _ q hq', lookup_channel_single,
              if_neg (fun hpq => hq hpq.symm)]
  
/-- Witness for C10 at a fresh registry and two distinct concrete paths. -/
theorem c10_registry_invariant_witness :
    (∀ q' c',
       lookup_channel
         ((get_or_create_channel AppState.new (parsePath ("/w/b.md"))).2).channels
         q' = some c' → c'.capacity = 16)
    ∧ lookup_channel
        ((get_or_create_channel AppState.new (parsePath ("/w/b.md"))).2).channels
        (parsePath ("/w/b.md"))
        = some (get_or_create_channel AppState.new (parsePath ("/w/b.md"))).1
    ∧ lookup_channel
        ((get_or_create_channel AppState.new (parsePath ("/w/b.md"))).2).channels
        (parsePath ("/x"))
        = lookup_channel AppState.new.channels (parsePath ("/x")) :=
  ⟨(c10_registry_invariant AppState.new (parsePath ("/w/b.md"))
      (parsePath ("/x")) (BChannel.mk 16 [])).1
      (by intro q' c' h; simp [AppState.new, lookup_channel] at h),
   (c10_registry_invariant AppState.new (parsePath ("/w/b.md"))
      (parsePath ("/x")) (BChannel.mk 16 [])).2.2.1,
   (c10_registry_invariant AppState.new (parsePath ("/w/b.md"))
      (parsePath ("/x")) (BChannel.mk 16 [])).2.2.2 (by decide)⟩

/-- C1 counterexample: the preview intake keys the registry by the raw
request path while the viewer feed keys it by the path resolved against the
working directory, so the same relative spelling "b.md" (with cwd "/w")
yields two different identities; after both handlers register, a publish on
the intake's channel is invisible to the viewer's subscription. -/
theorem c1_counterexample :
    preview_channel_key ("b.md")
      ≠ watch_channel_key (parsePath ("/w")) (parsePath ("/h")) ("b.md")
    ∧ (let k1 := preview_channel_key ("b.md");
       let k2 := watch_channel_key (parsePath ("/w")) (parsePath ("/h")) ("b.md");
       let r1 := get_or_create_channel AppState.new k1;
       let r2 := get_or_create_channel r1.2 k2;
       let sub := subscribeC r2.1;
       let st3 := publish_state r2.2 k1 ("<p>HTML</p>");
       (lookup_channel st3.channels k2).map (fun ch => received sub ch)
         = some []) := by
  refine ⟨by decide, by decide⟩

/-- C1 (amended): the two endpoints obtain the same underlying channel
exactly when the intake's raw path equals the viewer's resolved path — in
particular, whenever both requests name the file by the same absolute path,
they resolve to the same identity and `get_or_create_channel` hands both the
same channel. -/
theorem c1_amended (s : String) (cwd home : PathC) (st : AppState)
    (habs : (parsePath s).head? = some Component.rootDir) :
    watch_channel_key cwd home s = preview_channel_key s
    ∧ (get_or_create_channel
         ((get_or_create_channel st (preview_channel_key s)).2)
         (watch_channel_key cwd home s)).1
        = (get_or_create_channel st (preview_channel_key s)).1 := by
  have hk : watch_channel_key cwd home s = preview_channel_key s := by
    simp [watch_channel_key, preview_channel_key, resolve_in, habs]
  refine ⟨hk, ?_⟩
  rw [hk]
  exact get_or_create_channel_idem st _

/-- Witness for C1 (amended) at the absolute path "/w/b.md". -/
theorem c1_amended_witness :
    watch_channel_key (parsePath ("/cwd")) (parsePath ("/h")) ("/w/b.md")
      = preview_channel_key ("/w/b.md")
    ∧ (get_or_create_channel
         ((get_or_create_channel AppState.new
            (preview_channel_key ("/w/b.md"))).2)
         (watch_channel_key (parsePath ("/cwd")) (parsePath ("/h")) ("/w/b.md"))).1
        = (get_or_create_channel AppState.new
            (preview_channel_key ("/w/b.md"))).1 :=
  c1_amended ("/w/b.md") (parsePath ("/cwd")) (parsePath ("/h")) AppState.new
    (by decide)

/-- C3: `join_and_canonicalize` succeeds exactly by taking the base file's
parent directory, joining the relative destination, and folding the cleanup
step over the components — where `..` pops exactly one previously
accumulated segment, a `..` at the root (or on an empty accumulator) is
silently dropped, `.` is dropped, and nothing touches the filesystem (the
function is total); and "../linux.md" against "/a/b/c/dns.md" resolves to
"/a/b/linux.md". -/
theorem c3_join_and_canonicalize (p : String) (base d acc : PathC)
    (s : String) :
    (parentP base = some d →
       join_and_canonicalize p base
         = some ((joinP d (parsePath p)).foldl clean_step []))
    ∧ clean_step (acc ++ [Component.normal s]) Component.parentDir = acc
    ∧ clean_step [Component.rootDir] Component.parentDir = [Component.rootDir]
    ∧ clean_step [] Component.parentDir = []
    ∧ clean_step acc Component.curDir = acc
    ∧ join_and_canonicalize ("../linux.md") (parsePath ("/a/b/c/dns.md"))
        = some (parsePath ("/a/b/linux.md")) := by
  refine ⟨?_, ?_, by decide, by decide, rfl, by decide⟩
  · intro h
    simp [join_and_canonicalize, h]
  · show popP (acc ++ [Component.normal s]) = acc
    have h1 : ¬(acc ++ [Component.normal s] = [Component.rootDir]) := by
      intro h
      have := congrArg List.getLast? h
      simp at this
    simp [popP, parentP, h1]
  
/-- Witness for C3 at a concrete base file with a parent directory. -/
theorem c3_join_and_canonicalize_witness :
    join_and_canonicalize ("new.md") (parsePath ("/a/b.md"))
      = some ((joinP (parsePath ("/a")) (parsePath ("new.md"))).foldl
          clean_step []) :=
  (c3_join_and_canonicalize ("new.md") (parsePath ("/a/b.md"))
    (parsePath ("/a")) [] ("x")).1 (by decide)

/-- C6: `escape_html` is a per-character homomorphism that maps each of the
five specials to its entity exactly once and leaves every other character
unchanged; the render loop applies it to inline text and to code (block or
span) content, while raw-HTML and inline-HTML event content is appended
verbatim, never escaped. -/
theorem c6_escaping (a b t content : String) (st : String × Bool)
    (off : Nat) (c : Char) :
    escape_html (a ++ b) = escape_html a ++ escape_html b
    ∧ escape_html ("&") = ("&amp;")
    ∧ escape_html ("<") = ("&lt;")
    ∧ escape_html (">") = ("&gt;")
    ∧ escape_html (String.singleton quot_char) = ("&quot;")
    ∧ escape_html (String.singleton apos_char) = ("&#x27;")
    ∧ (¬(c = '&' ∨ c = '<' ∨ c = '>' ∨ c = quot_char ∨ c = apos_char) →
        escape_html (String.singleton c) = String.singleton c)
    ∧ render_step content st (Event.text t, off) = (st.1 ++ escape_html t, st.2)
    ∧ render_step content st (Event.code t, off)
        = (st.1 ++ ("<code>") ++ escape_html t ++ ("</code>"), st.2)
    ∧ render_step content st (Event.html t, off) = (st.1 ++ t, st.2)
    ∧ render_step content st (Event.inlineHtml t, off) = (st.1 ++ t, st.2) := by
  refine ⟨?_, by decide, by decide, by decide, by decide, by decide, ?_,
    rfl, rfl, rfl, rfl⟩
  · show String.mk ((a ++ b).toList.flatMap escape_char)
      = String.mk (a.toList.flatMap escape_char)
        ++ String.mk (b.toList.flatMap escape_char)
    have hab : (a ++ b).toList = a.toList ++ b.toList := by
      cases a
      cases b
      rfl
    rw [hab, List.flatMap_append]
    rfl
  · intro h
    push_neg at h
    obtain ⟨h1, h2, h3, h4, h5⟩ := h
    show String.mk ((String.singleton c).toList.flatMap escape_char)
      = String.singleton c
    have hc : (String.singleton c).toList = [c] := rfl
    rw [hc]
    simp [List.flatMap, escape_char, h1, h2, h3, h4, h5]
    rfl

/-- Witness for C6 at a concrete non-special character. -/
theorem c6_escaping_witness :
    escape_html (String.singleton ('x')) = String.singleton ('x') :=
  (c6_escaping ("") ("") ("") ("") ((""), false) 0 ('x')).2.2.2.2.2.2.1
    (by decide)

/-- C9 counterexample: on the claim's own example frame "# hi\nbye" the code
computes total lines 2 (Rust `lines().count()`), while the claim's formula
"count of line breaks in the payload (minimum 1)" yields 1. -/
theorem c9_counterexample :
    parse_frame none ("# hi\nbye") = (("# hi\nbye"), 1, 2, false)
    ∧ max (count_line_breaks ("# hi\nbye")) 1 = 1
    ∧ lines_count ("# hi\nbye") ≠ max (count_line_breaks ("# hi\nbye")) 1 := by
  refine ⟨by decide, by decide, by decide⟩

/-- C9 (amended): a frame that fails to parse as the structured JSON form is
treated as plain markdown with cursor line 1, total lines equal to the
payload's number of lines per Rust `lines()` semantics (one per newline,
plus one when text follows the last newline), minimum 1, and sync-scroll
false; in particular "# hi\nbye" yields cursor_line 1, total_lines 2,
sync_scroll false. -/
theorem c9_amended (text : String) :
    parse_frame none text = (text, 1, max (lines_count text) 1, false)
    ∧ lines_count ("# hi\nbye") = 2
    ∧ parse_frame none ("# hi\nbye") = (("# hi\nbye"), 1, 2, false) := by
  refine ⟨rfl, by decide, by decide⟩

/-- C4: `render_content` always returns `Ok` of the best-effort HTML for
every content string and base path, so the render-error branch of the
preview intake handler is never taken, and `render_doc` fails exactly when
the outer canonicalize-or-read step fails. -/
theorem c4_render_never_fails (fs : PathC → Option (List Nat))
    (cwd : Option PathC) (home base_path : PathC) (content : String)
    (events : List (Event × Nat)) (parse_md : String → List (Event × Nat))
    (st : AppState) (path : PathC) (parsed : Option PreviewInput)
    (text : String) (canon : Option PathC) (reader : PathC → Option String)
    (uw : Bool) :
    render_content fs cwd home base_path content events
      = Except.ok (render_markdown_to_html fs cwd home base_path content events)
    ∧ (handle_preview_frame parse_md fs cwd home st path parsed text).2 = false
    ∧ except_is_ok (render_doc canon reader parse_md fs cwd home uw)
        = (match canon with
           | none => false
           | some pc => (reader pc).isSome) := by
  refine ⟨rfl, rfl, ?_⟩
  cases canon with
  | none => rfl
  | some pc =>
      cases hr : reader pc <;> simp [render_doc, except_is_ok, hr]

/-- C2 counterexample: a reference-style (shortcut) link with a relative
destination is not passed through the resolver at all — the event, and hence
the emitted destination, is left as "../x.md", not the "/?path=…" form the
resolver would produce ("/?path=/a/x.md" for base "/a/b/c.md"). -/
theorem c2_counterexample :
    rewrite_event (fun _ => none) (some (parsePath ("/w"))) (parsePath ("/h"))
        (parsePath ("/a/b/c.md"))
        (Event.start (Tag.link LinkType.shortcut ("../x.md") ("")))
      = Event.start (Tag.link LinkType.shortcut ("../x.md") (""))
    ∧ rewrite_link_dest (some (parsePath ("/w"))) (parsePath ("/a/b/c.md"))
        ("../x.md") = ("/?path=/a/x.md")
    ∧ ("../x.md") ≠ ("/?path=/a/x.md") := by
  refine ⟨rfl, by decide, by decide⟩

/-- C2 (amended): destinations that parse as absolute URLs pass through
unchanged for every link/image kind, but the Path Resolver is applied only
to *inline* links and images: a non-inline kind is always left untouched,
while an inline link destination becomes "/?path=<resolved-path>" and an
inline image destination becomes a data-URL. -/
theorem c2_amended (fs : PathC → Option (List Nat)) (cwd : Option PathC)
    (home base_path : PathC) (d t : String) (lt : LinkType) :
    (url_parse_ok d = true →
       rewrite_event fs cwd home base_path (Event.start (Tag.link lt d t))
           = Event.start (Tag.link lt d t)
       ∧ rewrite_event fs cwd home base_path (Event.start (Tag.image lt d t))
           = Event.start (Tag.image lt d t))
    ∧ (lt ≠ LinkType.inline →
       rewrite_event fs cwd home base_path (Event.start (Tag.link lt d t))
           = Event.start (Tag.link lt d t)
       ∧ rewrite_event fs cwd home base_path (Event.start (Tag.image lt d t))
           = Event.start (Tag.image lt d t))
    ∧ (url_parse_ok d = false →
       rewrite_event fs cwd home base_path
           (Event.start (Tag.link LinkType.inline d t))
         = Event.start (Tag.link LinkType.inline
             (("/?path=") ++ renderPath (rewrite_link_target cwd base_path d))
             t))
    ∧ (url_parse_ok d = false →
       ∃ u, rewrite_event fs cwd home base_path
              (Event.start (Tag.image LinkType.inline d t))
            = Event.start (Tag.image LinkType.inline u t)
          ∧ ∃ r, u = ("data:") ++ r) := by
  refine ⟨?_, ?_, ?_, ?_⟩
  · intro h
    cases lt <;> exact ⟨by simp [rewrite_event, h], by simp [rewrite_event, h]⟩
  · intro h
    cases lt
    case inline => exact absurd rfl h
    all_goals exact ⟨rfl, rfl⟩
  · intro h
    simp [rewrite_event, h, rewrite_link_dest]
  · intro h
    cases hf : path_to_data_url fs (resolve_in (parsePath d) base_path home) with
    | some u0 =>
        refine ⟨u0, by simp [rewrite_event, h, hf], ?_⟩
        unfold path_to_data_url at hf
        cases hfs : fs (resolve_in (parsePath d) base_path home) with
        | none => rw [hfs] at hf; cases hf
        | some file =>
            rw [hfs] at hf
            replace hf : data_url file
                (mime_for_path (resolve_in (parsePath d) base_path home)) = u0 :=
              Option.some.inj (by simpa using hf)
            refine ⟨(mime_for_path (resolve_in (parsePath d) base_path home))
              ++ ((";base64,")
                ++ String.mk (base64_encode file)), ?_⟩
            rw [← hf]
            show ((("data:")
                ++ mime_for_path (resolve_in (parsePath d) base_path home))
              ++ (";base64,")) ++ String.mk (base64_encode file) = _
            rw [String.append_assoc, String.append_assoc]
    | none =>
        refine ⟨generate_message_data_url ("Disk error.") ("red"),
          by simp [rewrite_event, h, hf], ?_⟩
        refine ⟨("image/svg+xml") ++ ((";base64,")
          ++ String.mk (base64_encode (str_bytes
               (svg_template ("red") ("Disk error."))))), ?_⟩
        show ((("data:") ++ ("image/svg+xml")) ++ (";base64,"))
            ++ String.mk (base64_encode (str_bytes
              (svg_template ("red") ("Disk error.")))) = _
        rw [String.append_assoc, String.append_assoc]

/-- Witness for C2 (amended): a reference link passes through untouched and
an inline link is rewritten, both at the concrete destination "../x.md". -/
theorem c2_amended_witness :
    rewrite_event (fun _ => none) (some (parsePath ("/w"))) (parsePath ("/h"))
        (parsePath ("/a/b/c.md"))
        (Event.start (Tag.link LinkType.reference ("../x.md") ("")))
      = Event.start (Tag.link LinkType.reference ("../x.md") (""))
    ∧ rewrite_event (fun _ => none) (some (parsePath ("/w"))) (parsePath ("/h"))
        (parsePath ("/a/b/c.md"))
        (Event.start (Tag.link LinkType.inline ("../x.md") ("")))
      = Event.start (Tag.link LinkType.inline
          (("/?path=") ++ renderPath (rewrite_link_target
            (some (parsePath ("/w"))) (parsePath ("/a/b/c.md")) ("../x.md")))
          ("")) :=
  ⟨((c2_amended (fun _ => none) (some (parsePath ("/w"))) (parsePath ("/h"))
      (parsePath ("/a/b/c.md")) ("../x.md") ("") LinkType.reference).2.1
      (by decide)).1,
   (c2_amended (fun _ => none) (some (parsePath ("/w"))) (parsePath ("/h"))
      (parsePath ("/a/b/c.md")) ("../x.md") ("") LinkType.reference).2.2.1
      (by decide)⟩

/-- C7 counterexample: a shortcut-style image whose file is missing is not
rewritten at all — the rendered `img` src is the raw "missing.png", not a
data-URL (its first five characters are not "data:"). -/
theorem c7_counterexample :
    rewrite_event (fun _ => none) (some (parsePath ("/w"))) (parsePath ("/h"))
        (parsePath ("/a/b/c.md"))
        (Event.start (Tag.image LinkType.shortcut ("missing.png") ("")))
      = Event.start (Tag.image LinkType.shortcut ("missing.png") (""))
    ∧ render_markdown_to_html (fun _ => none) (some (parsePath ("/w")))
        (parsePath ("/h")) (parsePath ("/a/b/c.md")) ("")
        [(Event.start (Tag.image LinkType.shortcut ("missing.png") ("")), 0),
         (Event.endTag TagEnd.image, 0)]
      = ("<img src=\"missing.png\" alt=\"\" />")
    ∧ ("missing.png").toList.take 5 ≠ ("data:").toList := by
  refine ⟨rfl, by decide, by decide⟩

/-- C7 (amended): an *inline* image whose resolved file read fails still
renders — the destination becomes the generated placeholder, which is a
data-URL encoding the solid-color SVG containing the error message. -/
theorem c7_amended (fs : PathC → Option (List Nat)) (cwd : Option PathC)
    (home base_path : PathC) (dest title : String)
    (hurl : url_parse_ok dest = false)
    (hread : path_to_data_url fs (resolve_in (parsePath dest) base_path home)
      = none) :
    rewrite_event fs cwd home base_path
        (Event.start (Tag.image LinkType.inline dest title))
      = Event.start (Tag.image LinkType.inline
          (generate_message_data_url ("Disk error.") ("red")) title)
    ∧ ∃ r, generate_message_data_url ("Disk error.") ("red")
         = ("data:image/svg+xml;base64,") ++ r := by
  refine ⟨by simp [rewrite_event, hurl, hread], ?_⟩
  refine ⟨String.mk (base64_encode (str_bytes
    (svg_template ("red") ("Disk error.")))), ?_⟩
  rfl

/-- Witness for C7 (amended) at a concrete missing image. -/
theorem c7_amended_witness :
    rewrite_event (fun _ => none) (some (parsePath ("/w"))) (parsePath ("/h"))
        (parsePath ("/a/b/c.md"))
        (Event.start (Tag.image LinkType.inline ("missing.png") ("")))
      = Event.start (Tag.image LinkType.inline
          (generate_message_data_url ("Disk error.") ("red")) ("")) :=
  (c7_amended (fun _ => none) (some (parsePath ("/w"))) (parsePath ("/h"))
    (parsePath ("/a/b/c.md")) ("missing.png") ("") (by decide) (by decide)).1
